import Mathlib

/-!
Shallow embedding of `src/deploy/functions/release/executor.ts` and proofs about it.

The file models the error-shape probing (`parseErrorCode`), the shared operation
`handler`, the `QueueExecutor`, the `RateLimitedExecutor` and the `InlineExecutor`.
Promises are modelled by settled outcomes; a caller-supplied `func` is modelled as a
map from the attempt index to the outcome of that invocation of `func()`.
The two external queues (`Queue` from the throttler package and `PQueue`) are not part
of the sources; they are modelled from the spec at their interface boundary, as noted
on the corresponding definitions.
-/

set_option autoImplicit false

namespace FirebaseExec

/-- A response object as probed by `parseErrorCode`: `statusCode` may be absent. -/
structure Response where
  statusCode : Option Nat
deriving DecidableEq

/-- The context object probed by `err.context?.response?.statusCode`. -/
structure ErrContext where
  response : Option Response
deriving DecidableEq

/-- The wrapped original error probed by `err.original?.code` and
`err.original?.context?.response?.statusCode`. -/
structure OriginalError where
  code : Option Nat
  context : Option ErrContext
deriving DecidableEq

/-- A failure value as seen by the executor: every field that `parseErrorCode`
(executor.ts lines 35-43) probes may be absent. Codes are modelled as `Nat`
(the source deals in HTTP status codes). -/
structure JsError where
  status : Option Nat
  code : Option Nat
  context : Option ErrContext
  original : Option OriginalError
deriving DecidableEq

/-- The optional chain `c?.response?.statusCode`. -/
def contextStatusCode (c : Option ErrContext) : Option Nat :=
  c.bind (fun ctx => ctx.response.bind (fun r => r.statusCode))

/-- JS `a || b` on possibly-undefined numbers: `a` is kept when it is present and
truthy; the number `0` is falsy in JS, so a present `0` falls through to `b`. -/
def jsOr (a b : Option Nat) : Option Nat :=
  match a with
  | some n => if n = 0 then b else some n
  | none => b

/-- `parseErrorCode` (executor.ts lines 35-43):
`err.status || err.code || err.context?.response?.statusCode || err.original?.code ||
err.original?.context?.response?.statusCode`. -/
def parseErrorCode (err : JsError) : Option Nat :=
  jsOr err.status
    (jsOr err.code
      (jsOr (contextStatusCode err.context)
        (jsOr (err.original.bind (fun o => o.code))
          (err.original.bind (fun o => contextStatusCode o.context)))))

/-- The mutable `result`/`error` fields of an `Operation` (executor.ts lines 22-27).
`func` and `retryCodes` are passed separately to the functions below. -/
structure OpState (α : Type) where
  result : Option α
  error : Option JsError
deriving DecidableEq

/-- Outcome of one invocation of `op.func()`: the returned promise either resolves
with a value or rejects with a failure. -/
inductive FuncOutcome (α : Type) where
  | ok (v : α)
  | fail (e : JsError)
deriving DecidableEq

/-- Result of one invocation of the async function `handler(op)`: it either returns
normally with the updated operation state, or its promise rejects with the re-thrown
failure (leaving the operation state as given). -/
inductive HandlerResult (α : Type) where
  | done (st : OpState α)
  | raised (st : OpState α) (e : JsError)
deriving DecidableEq

/-- `op.retryCodes.includes(code)` (executor.ts line 56) where `code` may be
undefined; `includes` on a number array never matches undefined. -/
def codeMem (c : Option Nat) (rc : List Nat) : Bool :=
  match c with
  | none => false
  | some n => rc.contains n

/-- `handler` (executor.ts lines 45-63), for one operation attempt. `rc` is
`op.retryCodes`, `st` the operation's current state and `o` the outcome of this
attempt's `op.func()` call. On success the value is stored in `result`; on a failure
whose parsed code is in `rc` the failure is re-thrown unchanged; otherwise
`err.code = code` is assigned and the annotated failure is stored in `error`. -/
def handler {α : Type} (rc : List Nat) (st : OpState α) (o : FuncOutcome α) :
    HandlerResult α :=
  match o with
  | .ok v => .done { st with result := some v }
  | .fail err =>
    let code := parseErrorCode err
    if codeMem code rc then
      .raised st err
    else
      .done { st with error := some { err with code := code } }

/-- `DEFAULT_RETRY_CODES` (executor.ts line 33). -/
def DEFAULT_RETRY_CODES : List Nat := [429, 409, 503]

/-- `RunOptions` (executor.ts lines 14-16): `retryCodes` may be absent. -/
structure RunOptions where
  retryCodes : Option (List Nat)
deriving DecidableEq

/-- `opts?.retryCodes || DEFAULT_RETRY_CODES` (executor.ts lines 77 and 101). A JS
array is truthy even when empty, so an explicitly supplied empty list is kept. -/
def effectiveRetryCodes (opts : Option RunOptions) : List Nat :=
  match opts.bind (fun o => o.retryCodes) with
  | none => DEFAULT_RETRY_CODES
  | some l => l

/-- What a `run()` promise settles with. `resolved` carries `op.result` (still an
`Option` because of the unchecked `op.result as T` cast); `rejected` carries the
`JsError` the promise rejected with (either the stored `op.error` or a failure that
propagated through the queue submission); `queueExhausted` models the throttler
queue's own rejection once its internal retries are spent, carrying the last raised
failure (the queue is external to the sources). -/
inductive RunOutcome (α : Type) where
  | resolved (v : Option α)
  | rejected (e : JsError)
  | queueExhausted (lastErr : JsError)
deriving DecidableEq

/-- How the throttler queue settles `queue.run(op)`: it resolves once the handler
completed without raising, or gives up after its internal retries are spent. Both
carry the final operation state and the number of handler attempts made. -/
inductive QueueSettle (α : Type) where
  | resolved (st : OpState α) (attempts : Nat)
  | exhausted (st : OpState α) (lastErr : JsError) (attempts : Nat)
deriving DecidableEq

/-- Modelled from the spec: the throttler `Queue` (`src/throttler/queue`, not under
the provided sources). Per the spec, `queue.run(op)` resolves once the per-item
handler has completed without raising, internally retrying on a raise, per its own
backoff policy, up to its own configured attempt ceiling; past the ceiling the run
rejects, carrying the last raise. `fuel` is the remaining internal retry budget and
`k` the index of the current attempt. -/
def throttlerRun {α : Type} (rc : List Nat) (func : Nat → FuncOutcome α) :
    Nat → Nat → OpState α → QueueSettle α
  | 0, k, st =>
    match handler rc st (func k) with
    | .done st2 => .resolved st2 (k + 1)
    | .raised st2 e => .exhausted st2 e (k + 1)
  | f + 1, k, st =>
    match handler rc st (func k) with
    | .done st2 => .resolved st2 (k + 1)
    | .raised st2 _ => throttlerRun rc func f (k + 1) st2

/-- `QueueExecutor.run` (executor.ts lines 76-88): build a fresh operation with the
effective retry codes, submit it to the throttler queue, then throw `op.error` if it
is set and otherwise return `op.result as T`. Returns the settled outcome, the final
operation state and the number of local attempts of `func`. -/
def queueExecRun {α : Type} (fuel : Nat) (opts : Option RunOptions)
    (func : Nat → FuncOutcome α) : RunOutcome α × OpState α × Nat :=
  match throttlerRun (effectiveRetryCodes opts) func fuel 0 ⟨none, none⟩ with
  | .resolved st n =>
    match st.error with
    | some er => (.rejected er, st, n)
    | none => (.resolved st.result, st, n)
  | .exhausted st last n => (.queueExhausted last, st, n)

/-- Final observation of one `RateLimitedExecutor.run` call: the settled outcome,
the final operation state, the final `op.retryCount` and the number of attempts of
`func`. -/
structure RLResult (α : Type) where
  outcome : RunOutcome α
  finalOp : OpState α
  retryCount : Nat
  attempts : Nat
deriving DecidableEq

/-- `RateLimitedExecutor.run` (executor.ts lines 100-125). The source wraps the
handler as

`const task = (): Promise<void> => { try { return handler(op); } catch (err) ... }`

`handler` is an async function, so the call `handler(op)` never throws synchronously:
a retryable failure re-thrown inside `handler` surfaces as a rejection of the
returned promise, which the `try`/`catch` around the synchronous call does not
intercept. The `catch` block (the `retryCount > retries` check, the
`RetriesExhaustedError` and the resubmission of `task`) is therefore unreachable, and
`op.retryCount` is never incremented. `PQueue.add` is modelled from the spec: it runs
the task once and a rejection simply fails the `add` call, so
`await this.queue.add(task)` re-throws the raw failure. -/
def rateLimitedRun {α : Type} (retries : Nat) (opts : Option RunOptions)
    (func : Nat → FuncOutcome α) : RLResult α :=
  match handler (effectiveRetryCodes opts) ⟨none, none⟩ (func 0) with
  | .raised st e => ⟨.rejected e, st, 0, 1⟩
  | .done st =>
    match st.error with
    | some er => ⟨.rejected er, st, 0, 1⟩
    | none => ⟨.resolved st.result, st, 0, 1⟩

/-- `InlineExecutor.run` (executor.ts lines 132-136): `return func();` — one
invocation, the promise passed through unmodified. Pairs the settled outcome with
the number of invocations of `func`. -/
def inlineRun {α : Type} (func : Nat → FuncOutcome α) : RunOutcome α × Nat :=
  (match func 0 with
   | .ok v => .resolved (some v)
   | .fail e => .rejected e, 1)

/-- The five probe locations of `parseErrorCode`, in source order, each as the
optional value the corresponding optional chain produces. -/
def probeLocations (err : JsError) : List (Option Nat) :=
  [err.status, err.code, contextStatusCode err.context,
   err.original.bind (fun o => o.code),
   err.original.bind (fun o => contextStatusCode o.context)]

/-- Following the words of the spec: the first PRESENT value among the five probe
locations, in priority order. Used to compare the spec's description of the
classifier with the source's `parseErrorCode`. -/
def specFirstPresent (err : JsError) : Option Nat :=
  (probeLocations err).findSome? id

/-- The first present NONZERO value among the five probe locations. -/
def specFirstNonzero (err : JsError) : Option Nat :=
  (probeLocations err).findSome? (fun o => o.filter (fun n => n != 0))

/-- The `||` chain over a nonempty list of optional numbers, with the last operand
returned raw, exactly as `a || b || c || d || e` evaluates. -/
def jsOrChain : List (Option Nat) → Option Nat
  | [] => none
  | [x] => x
  | x :: y :: xs => jsOr x (jsOrChain (y :: xs))

/-- Concrete failures used below. -/
def errS429 : JsError := { status := some 429, code := none, context := none, original := none }

def err404 : JsError := { status := some 404, code := none, context := none, original := none }

def errZeroThen404 : JsError :=
  { status := some 0, code := some 404, context := none, original := none }

/-- A `func` whose every invocation rejects with `errS429`. -/
def alwaysFail429 : Nat → FuncOutcome Nat := fun _ => FuncOutcome.fail errS429

/-- A `func` whose every invocation rejects with `err404`. -/
def alwaysFail404 : Nat → FuncOutcome Nat := fun _ => FuncOutcome.fail err404

/-- Exactly one of the operation's `result`/`error` fields is set. -/
def exactlyOne {α : Type} (st : OpState α) : Prop :=
  (st.result ≠ none ∧ st.error = none) ∨ (st.result = none ∧ st.error ≠ none)

/-- Neither of the operation's `result`/`error` fields is set. -/
def neitherSet {α : Type} (st : OpState α) : Prop :=
  st.result = none ∧ st.error = none

instance exactlyOneDecidable {α : Type} [DecidableEq α] (st : OpState α) :
    Decidable (exactlyOne st) :=
  inferInstanceAs (Decidable ((st.result ≠ none ∧ st.error = none) ∨
    (st.result = none ∧ st.error ≠ none)))

instance neitherSetDecidable {α : Type} [DecidableEq α] (st : OpState α) :
    Decidable (neitherSet st) :=
  inferInstanceAs (Decidable (st.result = none ∧ st.error = none))

lemma parseErrorCode_eq_chain (err : JsError) :
    parseErrorCode err = jsOrChain (probeLocations err) := rfl

lemma jsOrChain_firstNonzero : ∀ (l : List (Option Nat)) (n : Nat),
    l.findSome? (fun o => o.filter (fun m => m != 0)) = some n → jsOrChain l = some n := by
  intro l
  induction l with
  | nil => intro n h; simp [List.findSome?] at h
  | cons x xs ih =>
    intro n h
    rw [List.findSome?] at h
    cases hx : x.filter (fun m => m != 0) with
    | some m =>
      rw [hx] at h
      cases h
      have hx2 : x = some n ∧ (n != 0) = true := by
        cases x with
        | none => simp [Option.filter] at hx
        | some v =>
          simp only [Option.filter] at hx
          by_cases hv : (v != 0) = true
          · simp [hv] at hx; exact ⟨by rw [hx], by rw [← hx]; exact hv⟩
          · simp [hv] at hx
      obtain ⟨hxe, hne⟩ := hx2
      subst hxe
      cases xs with
      | nil => simp [jsOrChain]
      | cons y ys =>
        simp only [jsOrChain, jsOr]
        have : ¬ n = 0 := by simpa using hne
        simp [this]
    | none =>
      rw [hx] at h
      have hxz : x = none ∨ x = some 0 := by
        cases x with
        | none => exact Or.inl rfl
        | some v =>
          simp only [Option.filter] at hx
          by_cases hv : (v != 0) = true
          · simp [hv] at hx
          · have : v = 0 := by simpa using hv
            exact Or.inr (by rw [this])
      cases xs with
      | nil => simp [List.findSome?] at h
      | cons y ys =>
        have hrest : jsOrChain (x :: y :: ys) = jsOrChain (y :: ys) := by
          rcases hxz with hz | hz <;> subst hz <;> simp [jsOrChain, jsOr]
        rw [hrest]
        exact ih n h

lemma jsOrChain_allAbsent : ∀ (l : List (Option Nat)),
    l.findSome? id = none → jsOrChain l = none := by
  intro l
  induction l with
  | nil => intro _; rfl
  | cons x xs ih =>
    intro h
    rw [List.findSome?] at h
    cases hx : (id x : Option Nat) with
    | some m => rw [hx] at h; cases h
    | none =>
      rw [hx] at h
      have hxn : x = none := hx
      subst hxn
      cases xs with
      | nil => rfl
      | cons y ys =>
        have : jsOrChain (none :: y :: ys) = jsOrChain (y :: ys) := by
          simp [jsOrChain, jsOr]
        rw [this]
        exact ih h

lemma handler_raised_state {α : Type} (rc : List Nat) (st st2 : OpState α)
    (o : FuncOutcome α) (e : JsError)
    (h : handler rc st o = HandlerResult.raised st2 e) : st2 = st := by
  cases o with
  | ok v => simp [handler] at h
  | fail err =>
    by_cases hc : codeMem (parseErrorCode err) rc
    · simp [handler, hc] at h
      exact h.1.symm
    · simp [handler, hc] at h

lemma handler_fresh_done {α : Type} (rc : List Nat) (o : FuncOutcome α) (st : OpState α)
    (h : handler rc (⟨none, none⟩ : OpState α) o = HandlerResult.done st) :
    exactlyOne st := by
  cases o with
  | ok v =>
    simp only [handler] at h
    cases h
    simp [exactlyOne]
  | fail err =>
    by_cases hc : codeMem (parseErrorCode err) rc
    · simp [handler, hc] at h
    · simp only [handler, hc, Bool.false_eq_true, if_false] at h
      cases h
      simp [exactlyOne]

lemma throttlerRun_fresh {α : Type} (rc : List Nat) (func : Nat → FuncOutcome α) :
    ∀ (fuel k : Nat),
      (∀ st n, throttlerRun rc func fuel k ⟨none, none⟩ = QueueSettle.resolved st n →
        exactlyOne st) ∧
      (∀ st e n, throttlerRun rc func fuel k ⟨none, none⟩ = QueueSettle.exhausted st e n →
        st = ⟨none, none⟩) := by
  intro fuel
  induction fuel with
  | zero =>
    intro k
    cases hh : handler rc (⟨none, none⟩ : OpState α) (func k) with
    | done st2 =>
      refine ⟨?_, ?_⟩
      · intro st n h
        simp only [throttlerRun, hh] at h
        cases h
        exact handler_fresh_done rc (func k) st2 hh
      · intro st e n h
        simp only [throttlerRun, hh] at h
        exact QueueSettle.noConfusion h
    | raised st2 e2 =>
      refine ⟨?_, ?_⟩
      · intro st n h
        simp only [throttlerRun, hh] at h
        exact QueueSettle.noConfusion h
      · intro st e n h
        simp only [throttlerRun, hh] at h
        injection h with h1 h2 h3
        rw [← h1]
        exact handler_raised_state rc ⟨none, none⟩ st2 (func k) e2 hh
  | succ f ih =>
    intro k
    cases hh : handler rc (⟨none, none⟩ : OpState α) (func k) with
    | done st2 =>
      refine ⟨?_, ?_⟩
      · intro st n h
        simp only [throttlerRun, hh] at h
        cases h
        exact handler_fresh_done rc (func k) st2 hh
      · intro st e n h
        simp only [throttlerRun, hh] at h
        exact QueueSettle.noConfusion h
    | raised st2 e2 =>
      have hst : st2 = ⟨none, none⟩ :=
        handler_raised_state rc ⟨none, none⟩ st2 (func k) e2 hh
      refine ⟨?_, ?_⟩
      · intro st n h
        simp only [throttlerRun, hh] at h
        rw [hst] at h
        exact (ih (k + 1)).1 st n h
      · intro st e n h
        simp only [throttlerRun, hh] at h
        rw [hst] at h
        exact (ih (k + 1)).2 st e n h

lemma codeMem_nil (c : Option Nat) : codeMem c [] = false := by
  cases c <;> rfl

/-- C1: evaluation of the code at the claim's scenario. With retry ceiling 1 (and
likewise 5) and an operation that rejects with a retryable 429 on every attempt,
`RateLimitedExecutor.run` invokes the operation exactly once, never increments
`retryCount`, and rejects with the raw 429 failure (its `code` field still absent)
rather than with a retries-exhausted failure: the `catch` in `task` cannot fire
because `handler` is async and `return handler(op)` never throws synchronously, so
the retry/exhaustion logic is unreachable. -/
theorem C1_code_behavior :
    rateLimitedRun 1 none alwaysFail429 =
      ({ outcome := RunOutcome.rejected errS429, finalOp := ⟨none, none⟩,
         retryCount := 0, attempts := 1 } : RLResult Nat) ∧
    rateLimitedRun 5 none alwaysFail429 =
      ({ outcome := RunOutcome.rejected errS429, finalOp := ⟨none, none⟩,
         retryCount := 0, attempts := 1 } : RLResult Nat) := by
  constructor <;> rfl

/-- C2 counterexample: with a failure whose `status` field is present with value 0
and whose `code` field is 404, the first PRESENT value among the five probe
locations is 0, yet `parseErrorCode` extracts 404: JS `||` skips a present falsy
value, so "the first present value wins" is false as stated. -/
theorem C2_counterexample :
    specFirstPresent errZeroThen404 = some 0 ∧
    parseErrorCode errZeroThen404 = some 404 ∧
    parseErrorCode errZeroThen404 ≠ specFirstPresent errZeroThen404 := by
  decide

/-- C2 (amended): the classifier probes the five locations in priority order and the
first present NONZERO value wins (a present 0 is skipped like an absent value, since
JS `||` tests truthiness); for every failure in which none of the five locations is
present, the extracted code is undefined and the failure is classified non-retryable
regardless of the configured retry-code set (the failure is absorbed into `error`
with `code` set to undefined). -/
theorem C2_amended : ∀ (err : JsError) (rc : List Nat) (st : OpState Nat),
    (∀ n, specFirstNonzero err = some n → parseErrorCode err = some n) ∧
    (specFirstPresent err = none →
      parseErrorCode err = none ∧
      handler rc st (FuncOutcome.fail err) =
        HandlerResult.done { st with error := some { err with code := none } }) := by
  intro err rc st
  constructor
  · intro n h
    rw [parseErrorCode_eq_chain]
    exact jsOrChain_firstNonzero _ n h
  · intro h
    have hp : parseErrorCode err = none := by
      rw [parseErrorCode_eq_chain]
      exact jsOrChain_allAbsent _ h
    refine ⟨hp, ?_⟩
    simp [handler, hp, codeMem]

/-- C2 witness: instantiating the amended claim at a concrete failure whose first
present nonzero value is 404 (a present `status` of 0 is skipped). -/
theorem C2_amended_witness : parseErrorCode errZeroThen404 = some 404 :=
  (C2_amended errZeroThen404 [] ⟨none, none⟩).1 404 (by decide)

/-- C3 counterexample: a failure with status 429 under the default retry codes is
classified retryable; `handler` re-throws it before the `err.code = code` assignment,
so the re-raised failure still has no `code` field: the code is NOT attached
"regardless of whether the failure was classified retryable or non-retryable". -/
theorem C3_counterexample :
    handler DEFAULT_RETRY_CODES (⟨none, none⟩ : OpState Nat) (FuncOutcome.fail errS429) =
      HandlerResult.raised ⟨none, none⟩ errS429 ∧
    parseErrorCode errS429 = some 429 ∧
    errS429.code = none := by
  decide

/-- C3 (amended): the resolved numeric code is attached back onto the failure
exactly once, but only for failures classified non-retryable (the annotated failure
is then stored in `error`); failures classified retryable are re-raised unchanged,
without the code being attached. -/
theorem C3_amended : ∀ (err : JsError) (rc : List Nat) (st : OpState Nat),
    (codeMem (parseErrorCode err) rc = false →
      handler rc st (FuncOutcome.fail err) =
        HandlerResult.done { st with error := some { err with code := parseErrorCode err } }) ∧
    (codeMem (parseErrorCode err) rc = true →
      handler rc st (FuncOutcome.fail err) = HandlerResult.raised st err) := by
  intro err rc st
  constructor <;> intro h <;> simp [handler, h]

/-- C3 witness: a non-retryable 404 failure gets its code attached and stored. -/
theorem C3_amended_witness :
    handler DEFAULT_RETRY_CODES (⟨none, none⟩ : OpState Nat) (FuncOutcome.fail err404) =
      HandlerResult.done ⟨none, some { err404 with code := some 404 }⟩ :=
  (C3_amended err404 DEFAULT_RETRY_CODES ⟨none, none⟩).1 (by decide)

/-- C4: the shared handler stores a success in `result` and returns normally;
re-raises a failure whose classified code is in the operation's retry-code set,
leaving the operation state untouched; and for a failure whose classified code is
not in the set, stores the code-annotated failure in `error` and returns normally. -/
theorem C4_handler : ∀ (rc : List Nat) (st : OpState Nat) (v : Nat) (err : JsError),
    handler rc st (FuncOutcome.ok v) = HandlerResult.done { st with result := some v } ∧
    (codeMem (parseErrorCode err) rc = true →
      handler rc st (FuncOutcome.fail err) = HandlerResult.raised st err) ∧
    (codeMem (parseErrorCode err) rc = false →
      handler rc st (FuncOutcome.fail err) =
        HandlerResult.done { st with error := some { err with code := parseErrorCode err } }) := by
  intro rc st v err
  refine ⟨rfl, ?_, ?_⟩ <;> intro h <;> simp [handler, h]

/-- C4 witness: the success case and the retryable-429 case at concrete inputs. -/
theorem C4_handler_witness :
    handler DEFAULT_RETRY_CODES (⟨none, none⟩ : OpState Nat) (FuncOutcome.ok 7) =
      HandlerResult.done ⟨some 7, none⟩ ∧
    handler DEFAULT_RETRY_CODES (⟨none, none⟩ : OpState Nat) (FuncOutcome.fail errS429) =
      HandlerResult.raised ⟨none, none⟩ errS429 :=
  ⟨(C4_handler DEFAULT_RETRY_CODES ⟨none, none⟩ 7 errS429).1,
   (C4_handler DEFAULT_RETRY_CODES ⟨none, none⟩ 7 errS429).2.1 (by decide)⟩

/-- C5: for the throttled-queue executor, once the queue has completed the submitted
operation, `run()` rejects with `op.error` when it is set and resolves with
`op.result` otherwise; and for an operation that always fails with a non-retryable
code, `run()` rejects with that exact failure with the code attached, the operation
is attempted exactly once locally, and the rejection is not a retries-exhausted
failure. -/
theorem C5_queue_run : ∀ (fuel : Nat) (opts : Option RunOptions)
    (func : Nat → FuncOutcome Nat) (e : JsError),
    (∀ st n er,
      throttlerRun (effectiveRetryCodes opts) func fuel 0 ⟨none, none⟩ =
        QueueSettle.resolved st n →
      st.error = some er → (queueExecRun fuel opts func).1 = RunOutcome.rejected er) ∧
    (∀ st n,
      throttlerRun (effectiveRetryCodes opts) func fuel 0 ⟨none, none⟩ =
        QueueSettle.resolved st n →
      st.error = none → (queueExecRun fuel opts func).1 = RunOutcome.resolved st.result) ∧
    (func 0 = FuncOutcome.fail e →
      codeMem (parseErrorCode e) (effectiveRetryCodes opts) = false →
      queueExecRun fuel opts func =
        (RunOutcome.rejected { e with code := parseErrorCode e },
         ⟨none, some { e with code := parseErrorCode e }⟩, 1)) := by
  intro fuel opts func e
  refine ⟨?_, ?_, ?_⟩
  · intro st n er hq he
    simp [queueExecRun, hq, he]
  · intro st n hq he
    simp [queueExecRun, hq, he]
  · intro h0 hcm
    have hth : throttlerRun (effectiveRetryCodes opts) func fuel 0 ⟨none, none⟩ =
        QueueSettle.resolved ⟨none, some { e with code := parseErrorCode e }⟩ 1 := by
      cases fuel <;> simp [throttlerRun, h0, handler, hcm]
    simp [queueExecRun, hth]

/-- C5 witness: an always-404 operation under the default retry codes, with queue
retry budget 2: a single local attempt and rejection with the annotated failure. -/
theorem C5_queue_run_witness :
    queueExecRun 2 none alwaysFail404 =
      (RunOutcome.rejected { err404 with code := some 404 },
       ⟨none, some { err404 with code := some 404 }⟩, 1) :=
  (C5_queue_run 2 none alwaysFail404 err404).2.2 rfl (by decide)

/-- C6 counterexample: a rate-limited run whose operation rejects with a retryable
429 settles (rejecting with the raw failure) while NEITHER `result` nor `error` is
set on the operation, so "exactly one of result/error is set once run()'s promise
settles" is false. -/
theorem C6_counterexample :
    (rateLimitedRun 2 none alwaysFail429).outcome = RunOutcome.rejected errS429 ∧
    (rateLimitedRun 2 none alwaysFail429).finalOp = ⟨none, none⟩ ∧
    ¬ exactlyOne (rateLimitedRun 2 none alwaysFail429).finalOp := by
  refine ⟨rfl, rfl, ?_⟩
  intro h
  rcases h with ⟨h1, -⟩ | ⟨-, h2⟩
  · exact h1 rfl
  · exact h2 rfl

/-- C6 (amended): once `run()`'s promise settles, at most one of the operation's
`result`/`error` fields is set; exactly one is set whenever the handler completed
normally, but when `run()` rejects because the failure propagated through the queue
submission itself — a retryable failure re-raised by the handler (rate-limited
executor), or the throttler queue exhausting its internal retries — neither field is
set (in particular neither is ever set while attempts are still pending). -/
theorem C6_amended : ∀ (retries fuel : Nat) (opts : Option RunOptions)
    (func : Nat → FuncOutcome Nat),
    (exactlyOne (rateLimitedRun retries opts func).finalOp ∨
      (neitherSet (rateLimitedRun retries opts func).finalOp ∧
        ∃ e, (rateLimitedRun retries opts func).outcome = RunOutcome.rejected e)) ∧
    (exactlyOne (queueExecRun fuel opts func).2.1 ∨
      (neitherSet (queueExecRun fuel opts func).2.1 ∧
        ∃ e, (queueExecRun fuel opts func).1 = RunOutcome.queueExhausted e)) := by
  intro retries fuel opts func
  constructor
  · cases hh : handler (effectiveRetryCodes opts) (⟨none, none⟩ : OpState Nat) (func 0) with
    | done st =>
      left
      have h1 : (rateLimitedRun retries opts func).finalOp = st := by
        cases he : st.error <;> simp [rateLimitedRun, hh, he]
      rw [h1]
      exact handler_fresh_done (effectiveRetryCodes opts) (func 0) st hh
    | raised st e =>
      right
      have hst : st = ⟨none, none⟩ :=
        handler_raised_state (effectiveRetryCodes opts) ⟨none, none⟩ st (func 0) e hh
      refine ⟨?_, e, ?_⟩ <;> simp [rateLimitedRun, hh, hst, neitherSet]
  · cases hq : throttlerRun (effectiveRetryCodes opts) func fuel 0
        (⟨none, none⟩ : OpState Nat) with
    | resolved st n =>
      left
      have h1 : (queueExecRun fuel opts func).2.1 = st := by
        cases he : st.error <;> simp [queueExecRun, hq, he]
      rw [h1]
      exact (throttlerRun_fresh (effectiveRetryCodes opts) func fuel 0).1 st n hq
    | exhausted st e n =>
      right
      have hst : st = ⟨none, none⟩ :=
        (throttlerRun_fresh (effectiveRetryCodes opts) func fuel 0).2 st e n hq
      refine ⟨?_, e, ?_⟩ <;> simp [queueExecRun, hq, hst, neitherSet]

/-- C7: when the caller supplies no retryCodes — either no options at all or options
without the field — both queue-backed executors classify against exactly
the default set 429, 409, 503. -/
theorem C7_default_retry_codes : ∀ (fuel retries : Nat) (func : Nat → FuncOutcome Nat),
    DEFAULT_RETRY_CODES = [429, 409, 503] ∧
    effectiveRetryCodes none = [429, 409, 503] ∧
    effectiveRetryCodes (some { retryCodes := none }) = [429, 409, 503] ∧
    queueExecRun fuel none func =
      queueExecRun fuel (some { retryCodes := some [429, 409, 503] }) func ∧
    rateLimitedRun retries none func =
      rateLimitedRun retries (some { retryCodes := some [429, 409, 503] }) func := by
  intro fuel retries func
  exact ⟨rfl, rfl, rfl, rfl, rfl⟩

/-- Two `run()` calls on one `QueueExecutor` instance (same queue configuration),
each building its own fresh `Operation` record (executor.ts lines 79-82). -/
def twoQueueRuns {α : Type} (fuel : Nat) (o1 o2 : Option RunOptions)
    (f1 f2 : Nat → FuncOutcome α) :
    (RunOutcome α × OpState α × Nat) × (RunOutcome α × OpState α × Nat) :=
  (queueExecRun fuel o1 f1, queueExecRun fuel o2 f2)

/-- Two `run()` calls on one `RateLimitedExecutor` instance (same `retries`
ceiling), each building its own fresh `RateLimitedOperation` record
(executor.ts lines 103-107). -/
def twoRateLimitedRuns {α : Type} (retries : Nat) (o1 o2 : Option RunOptions)
    (f1 f2 : Nat → FuncOutcome α) : RLResult α × RLResult α :=
  (rateLimitedRun retries o1 f1, rateLimitedRun retries o2 f2)

/-- C8: two `run()` calls on the same executor instance yield independent operation
records: the full observation of each call (settled outcome, final result/error
fields, attempt counts) is unchanged under any variation of the OTHER call's
function and options, for both queue-backed executors. -/
theorem C8_independent_runs : ∀ (fuel retries : Nat)
    (o1 o2 o1' o2' : Option RunOptions) (f1 f2 f1' f2' : Nat → FuncOutcome Nat),
    (twoQueueRuns fuel o1 o2 f1 f2).1 = (twoQueueRuns fuel o1 o2' f1 f2').1 ∧
    (twoQueueRuns fuel o1 o2 f1 f2).2 = (twoQueueRuns fuel o1' o2 f1' f2).2 ∧
    (twoRateLimitedRuns retries o1 o2 f1 f2).1 =
      (twoRateLimitedRuns retries o1 o2' f1 f2').1 ∧
    (twoRateLimitedRuns retries o1 o2 f1 f2).2 =
      (twoRateLimitedRuns retries o1' o2 f1' f2).2 := by
  intro fuel retries o1 o2 o1' o2' f1 f2 f1' f2'
  exact ⟨rfl, rfl, rfl, rfl⟩

/-- C9: an explicitly empty `retryCodes` array is truthy in JS, so both executors
use the empty set rather than the default 429/409/503; every failure is then
classified non-retryable, and `run()` rejects with the code-annotated original
failure after a single attempt. -/
theorem C9_empty_retry_codes : ∀ (fuel retries : Nat) (func : Nat → FuncOutcome Nat)
    (e : JsError),
    func 0 = FuncOutcome.fail e →
    effectiveRetryCodes (some { retryCodes := some [] }) = [] ∧
    queueExecRun fuel (some { retryCodes := some [] }) func =
      (RunOutcome.rejected { e with code := parseErrorCode e },
       ⟨none, some { e with code := parseErrorCode e }⟩, 1) ∧
    rateLimitedRun retries (some { retryCodes := some [] }) func =
      { outcome := RunOutcome.rejected { e with code := parseErrorCode e },
        finalOp := ⟨none, some { e with code := parseErrorCode e }⟩,
        retryCount := 0, attempts := 1 } := by
  intro fuel retries func e h0
  have hcm : codeMem (parseErrorCode e) [] = false := codeMem_nil _
  refine ⟨rfl, ?_, ?_⟩
  · have hth : throttlerRun [] func fuel 0 ⟨none, none⟩ =
        QueueSettle.resolved ⟨none, some { e with code := parseErrorCode e }⟩ 1 := by
      cases fuel <;> simp [throttlerRun, h0, handler, hcm]
    have hrc : effectiveRetryCodes (some { retryCodes := some [] }) = [] := rfl
    simp [queueExecRun, hrc, hth]
  · have hrc : effectiveRetryCodes (some { retryCodes := some [] }) = [] := rfl
    simp [rateLimitedRun, hrc, handler, h0, hcm]

/-- C9 witness: a 429 failure — retryable under the defaults — is rejected after a
single attempt when the caller passes an explicitly empty retryCodes array. -/
theorem C9_empty_retry_codes_witness :
    rateLimitedRun 3 (some { retryCodes := some [] }) alwaysFail429 =
      { outcome := RunOutcome.rejected { errS429 with code := some 429 },
        finalOp := ⟨none, some { errS429 with code := some 429 }⟩,
        retryCount := 0, attempts := 1 } :=
  (C9_empty_retry_codes 0 3 alwaysFail429 errS429 rfl).2.2

/-- C10: the inline executor invokes `func()` exactly once and passes its promise
through unmodified: it resolves with the success value and rejects with the raw
failure — no queueing, no retry, no classification and no code annotation. -/
theorem C10_inline : ∀ (func : Nat → FuncOutcome Nat),
    (inlineRun func).2 = 1 ∧
    (∀ v, func 0 = FuncOutcome.ok v →
      (inlineRun func).1 = RunOutcome.resolved (some v)) ∧
    (∀ e, func 0 = FuncOutcome.fail e → (inlineRun func).1 = RunOutcome.rejected e) := by
  intro func
  refine ⟨rfl, ?_, ?_⟩ <;> intro x h <;> simp [inlineRun, h]

/-- C10 witness: the success case at value 7 and the failure case at a 429 failure,
whose rejection keeps the failure unannotated even though 429 is a default retry
code. -/
theorem C10_inline_witness :
    (inlineRun (fun _ => (FuncOutcome.ok 7 : FuncOutcome Nat))).1 =
      RunOutcome.resolved (some 7) ∧
    (inlineRun alwaysFail429).1 = RunOutcome.rejected errS429 :=
  ⟨(C10_inline (fun _ => FuncOutcome.ok 7)).2.1 7 rfl,
   (C10_inline alwaysFail429).2.2 errS429 rfl⟩

end FirebaseExec
